import Mathlib

/-!
Verification of the loggerparser repository (services/cr10xformatter.py and
services/ftpuploader.py) against its natural-language specification.

Shallow embedding conventions:
  a Python dict used as an ordered record becomes a Lean structure;
  a Python dict used as a keyed table becomes an association list;
  exceptions become an explicit `Option PyErr` (or `Except PyErr`) outcome;
  side effects on the file system and on the FTP session become an explicit
  log of actions, and the external collaborators (the campbellsciparser
  library primitives and the FTP session) become oracle parameters, except
  where the specification pins their behaviour down, in which case they are
  modelled from the spec and marked as such in their doc comment.
-/

/-- Python exceptions that the embedded code can raise. -/
inductive PyErr where
  | typeError
  | keyError
  | unsupportedValueConversionType
  | ftpError
  | ioError
  deriving DecidableEq, Repr

/-- A raw (not yet named) data row: the list of field values of one input line. -/
abbrev RawRow := List String

/-- A named row: an ordered mapping from column name to value (cr.Row).
Rows built by the code always have pairwise distinct keys, since cr.Row is a
dict-like ordered mapping. -/
abbrev NRow := List (String × String)

/-- A data set: an ordered sequence of named rows (cr.DataSet). -/
abbrev DataSet := List NRow

/-- Association-list lookup: the value stored under the first matching key. -/
def lookupA {α : Type} (key : String) : List (String × α) → Option α
  | [] => none
  | (k, v) :: rest => if k = key then some v else lookupA key rest

/-- Association-list update of the first matching key, a no-op on absent keys. -/
def updateA {α : Type} (key : String) (f : α → α) : List (String × α) → List (String × α)
  | [] => []
  | (k, v) :: rest => if k = key then (k, f v) :: rest else (k, v) :: updateA key f rest

theorem lookupA_updateA_self {α : Type} (key : String) (f : α → α) (xs : List (String × α)) :
    lookupA key (updateA key f xs) = (lookupA key xs).map f := by
  induction xs with
  | nil => simp [lookupA, updateA]
  | cons p rest ih =>
    obtain ⟨k, v⟩ := p
    by_cases hk : k = key
    · simp [lookupA, updateA, hk]
    · simp [lookupA, updateA, hk, ih]

/-! ## services/cr10xformatter.py -/

/-- The abstract time-parsing primitive of the external campbellsciparser
library, as used with a replacement column: given the value-time columns, the
time zone, the time-format args library, the to-utc flag and a source row, it
produces the parsed value for the target column.  Passed as a parameter
because the library is an external collaborator. -/
abbrev ParseFn := List String → String → List String → Bool → NRow → String

/-- The abstract cr.parse_time call of process_array_ids (the main time
conversion, producing the unified timestamp column): given the time zone, the
time-format args library, the parsed-column name, the time columns and the
to-utc flag, it transforms a data set.  External collaborator, passed as a
parameter. -/
abbrev PtMainFn := String → List String → String → List String → Bool → DataSet → DataSet

/-- The abstract cr.read_array_ids_data call of process_location: given the
input file path, the first line number and the array-id-to-name table, it
returns the new rows read, keyed by array name.  External collaborator,
passed as a parameter. -/
abbrev ReadFn := String → Nat → List (String × String) → List (String × List RawRow)

/-- Modelled from the spec: cr.update_column_names (the schema-assignment
step of the Array Demultiplexer, spec 4.1) is provided by the external
campbellsciparser library and is not under src.  Per the spec, with
match_row_lengths and get_mismatched_row_lengths set it assigns the declared
column names positionally to each row whose field count equals the schema
width, and routes every row whose field count differs to the mismatch set,
unmodified and without raising. -/
def update_column_names (column_names : List String) :
    List RawRow → DataSet × List RawRow
  | [] => ([], [])
  | row :: rest =>
    let r := update_column_names column_names rest
    if row.length = column_names.length then
      ((column_names.zip row) :: r.1, r.2)
    else
      (r.1, row :: r.2)

/-- make_data_set_backup: a copy of the given data set, rebuilt pair by pair
(cr10xformatter.py lines 66-83). -/
def make_data_set_backup (data : DataSet) : DataSet :=
  data.map (fun row => row.map (fun p => (p.1, p.2)))

/-- make_export_data_set: keeps, per row, exactly the pairs whose name is in
columns_to_export (cr10xformatter.py lines 86-109). -/
def make_export_data_set (data : DataSet) (columns_to_export : List String) : DataSet :=
  data.map (fun row => row.filter (fun p => columns_to_export.contains p.1))

/-- Modelled from the spec: convert_data_time_values wraps cr.parse_time with
replace_time_column set (cr10xformatter.py lines 28-63); the library call is
external to src.  Per spec 4.2 step 3, the parser returns a table containing
only the target column with its parsed values, one row per input row, in
order; the parsed value itself is the abstract ParseFn of the source row. -/
def convert_data_time_values (parse : ParseFn) (data : DataSet) (column_name : String)
    (value_time_columns : List String) (time_zone : String)
    (time_format_args_library : List String) (to_utc : Bool) : DataSet :=
  data.map (fun row =>
    [(column_name, parse value_time_columns time_zone time_format_args_library to_utc row)])

/-- The inner collection loop of restore_data_after_data_time_conversion
(cr10xformatter.py lines 130-138): for every row of the converted data set,
every entry whose name equals the converted column name is emitted as a
one-column row.  Rows are dict-like mappings, so at most one entry of a row
matches and the aliasing of the mutable accumulator in the Python loop is
immaterial. -/
def collect_converted (converted_column_name : String) : DataSet → DataSet
  | [] => []
  | row :: rest =>
    (row.filter (fun p => p.1 == converted_column_name)).map
        (fun p => [(converted_column_name, p.2)])
      ++ collect_converted converted_column_name rest

/-- Modelled from the spec: common.update_column_values_generator lives in
services/common, which is not under src.  Per spec 4.2 step 4, it walks the
baseline in original order and, for every row, replaces the values of the
columns present in the corresponding new row, copying all other columns
unchanged from the baseline. -/
def update_column_values_generator (data_old data_new : DataSet) : DataSet :=
  List.zipWith
    (fun old new => old.map (fun p =>
      match lookupA p.1 new with
      | some v => (p.1, v)
      | none => p))
    data_old data_new

/-- restore_data_after_data_time_conversion (cr10xformatter.py lines 112-145):
collect the converted target-column values, then merge them back over the
backup data set. -/
def restore_data_after_data_time_conversion (data data_backup : DataSet)
    (converted_column_name : String) : DataSet :=
  update_column_values_generator data_backup (collect_converted converted_column_name data)

/-- One declared column conversion (an entry of the values_to_convert dict of
convert_data_column_values). -/
structure ConvertColumnInfo where
  value_type : Option String
  value_time_columns : List String
  deriving DecidableEq, Repr

/-- The loop of convert_data_column_values (cr10xformatter.py lines 177-198):
data_converted starts empty and is overwritten by each iteration; a
value_type other than time raises UnsupportedValueConversionType at once. -/
def convert_loop (parse : ParseFn) (data data_backup : DataSet) (time_zone : String)
    (time_format_args_library : List String) (to_utc : Bool) (data_converted : DataSet) :
    List (String × ConvertColumnInfo) → Except PyErr DataSet
  | [] => .ok data_converted
  | (column_name, info) :: rest =>
    if info.value_type = some ("time") then
      let converted := convert_data_time_values parse data column_name
        info.value_time_columns time_zone time_format_args_library to_utc
      convert_loop parse data data_backup time_zone time_format_args_library to_utc
        (restore_data_after_data_time_conversion converted data_backup column_name) rest
    else
      .error .unsupportedValueConversionType

/-- convert_data_column_values (cr10xformatter.py lines 148-200). -/
def convert_data_column_values (parse : ParseFn) (data : DataSet)
    (values_to_convert : List (String × ConvertColumnInfo)) (time_zone : String)
    (time_format_args_library : List String) (to_utc : Bool) : Except PyErr DataSet :=
  convert_loop parse data (make_data_set_backup data) time_zone
    time_format_args_library to_utc [] values_to_convert

/-- Per-array-id configuration (an entry of the array_ids dict). -/
structure ArrayIdInfo where
  name : Option String
  column_names : List String
  export_columns : List String
  include_time_zone : Bool
  time_columns : List String
  time_parsed_column_name : Option String
  to_utc : Bool
  convert_data_column_values : List (String × ConvertColumnInfo)
  deriving DecidableEq, Repr

/-- An output-file write performed by the formatter (cr.export_to_csv call):
either the named, converted, projected data set of an array id, or the raw
mismatch rows of an array id. -/
inductive FmtWrite where
  | named (path : String) (data : DataSet)
  | raw (path : String) (data : List RawRow)
  deriving DecidableEq, Repr

/-- One iteration of the process_array_ids loop (cr10xformatter.py lines
235-331), for a single array id: look up its data (len of a missing entry
raises TypeError at line 240), skip an empty entry, assign column names,
convert declared column values, run the main time conversion, project the
export columns and emit the writes.  Both export_to_csv calls come last, so
an error produces no write for this array id. -/
def process_one_array_id (parse : ParseFn) (pt_main : PtMainFn)
    (site location : String) (data : List (String × List RawRow))
    (time_zone : String) (time_format_args_library : List String)
    (output_dir : String) (file_ext : String)
    (array_id : String) (info : ArrayIdInfo) : Except PyErr (List FmtWrite) :=
  let array_name := info.name.getD array_id
  match lookupA array_name data with
  | none => .error .typeError
  | some array_id_data =>
    if array_id_data.isEmpty then .ok [] else
    let time_parsed_column_name := info.time_parsed_column_name.getD ("Timestamp")
    let array_id_file := array_name ++ file_ext
    let array_id_file_path :=
      output_dir ++ ("/") ++ site ++ ("/") ++ location ++ ("/") ++ array_id_file
    let array_id_mismatches_file := array_name ++ (" Mismatches") ++ file_ext
    let array_id_mismatches_file_path :=
      output_dir ++ ("/") ++ site ++ ("/") ++ location ++ ("/") ++ array_id_mismatches_file
    let r := update_column_names info.column_names array_id_data
    let with_names := r.1
    let mismatches := r.2
    match (if info.convert_data_column_values.isEmpty then .ok with_names
           else convert_data_column_values parse with_names
             info.convert_data_column_values time_zone time_format_args_library
             info.to_utc) with
    | .error e => .error e
    | .ok with_names_converted =>
      let time_converted := pt_main time_zone time_format_args_library
        time_parsed_column_name info.time_columns info.to_utc with_names_converted
      let data_to_export := make_export_data_set time_converted info.export_columns
      .ok ([FmtWrite.named array_id_file_path data_to_export] ++
           (if mismatches.isEmpty then []
            else [FmtWrite.raw array_id_mismatches_file_path mismatches]))

/-- The outcome of process_array_ids: the writes performed, and the
exception, if one was raised partway through the loop (writes of the array
ids already completed are kept). -/
structure ArrIdsRun where
  writes : List FmtWrite
  err : Option PyErr
  deriving DecidableEq, Repr

/-- The loop of process_array_ids over the array_ids_info items. -/
def process_array_ids_from (parse : ParseFn) (pt_main : PtMainFn)
    (site location : String) (data : List (String × List RawRow))
    (time_zone : String) (time_format_args_library : List String)
    (output_dir : String) (file_ext : String) :
    List (String × ArrayIdInfo) → ArrIdsRun
  | [] => ⟨[], none⟩
  | (array_id, info) :: rest =>
    match process_one_array_id parse pt_main site location data time_zone
        time_format_args_library output_dir file_ext array_id info with
    | .error e => ⟨[], some e⟩
    | .ok ws =>
      let r := process_array_ids_from parse pt_main site location data time_zone
        time_format_args_library output_dir file_ext rest
      ⟨ws ++ r.writes, r.err⟩

/-- process_array_ids (cr10xformatter.py lines 203-331), with the parameters
in source order; its third parameter is named data. -/
def process_array_ids (parse : ParseFn) (pt_main : PtMainFn)
    (site location : String) (data : List (String × List RawRow))
    (time_zone : String) (time_format_args_library : List String)
    (output_dir : String) (array_ids_info : List (String × ArrayIdInfo))
    (file_ext : String) : ArrIdsRun :=
  process_array_ids_from parse pt_main site location data time_zone
    time_format_args_library output_dir file_ext array_ids_info

/-- Per-location configuration (an entry of cfg sites, locations). -/
structure FmtLocInfo where
  array_ids : List (String × ArrayIdInfo)
  file_path : String
  line_num : Option Nat
  time_zone : String
  time_format_args_library : List String
  deriving DecidableEq, Repr

/-- Per-site configuration of the formatter. -/
structure FmtSiteInfo where
  locations : List (String × FmtLocInfo)
  deriving DecidableEq, Repr

/-- The formatter configuration (the part process_location touches). -/
structure FmtCfg where
  sites : List (String × FmtSiteInfo)
  deriving DecidableEq, Repr

/-- The line 418 assignment: cfg sites site locations location line_num is
set.  In the source the site and location keys are present, since
location_info was taken from cfg under those very keys. -/
def fmt_set_line_num (cfg : FmtCfg) (site location : String) (v : Nat) : FmtCfg :=
  { cfg with sites := updateA site (fun si =>
      { si with locations := updateA location (fun li =>
          { li with line_num := some v }) si.locations }) cfg.sites }

/-- The stored checkpoint of a site and location, read as the source reads it
(get with default 0, cr10xformatter.py line 368). -/
def fmt_stored_line_num (cfg : FmtCfg) (site location : String) : Option Nat :=
  match lookupA site cfg.sites with
  | none => none
  | some si =>
    match lookupA location si.locations with
    | none => none
    | some li => some (li.line_num.getD 0)

/-- The tracking update of process_location (cr10xformatter.py lines
414-418): only when track is set and at least one new row was read is the
stored line number overwritten with line_num + num_of_new_rows. -/
def track_checkpoint_update (cfg : FmtCfg) (site location : String) (track : Bool)
    (line_num num_of_new_rows : Nat) : FmtCfg :=
  if track then
    if 0 < num_of_new_rows then
      fmt_set_line_num cfg site location (line_num + num_of_new_rows)
    else cfg
  else cfg

/-- The parameter names of process_array_ids (cr10xformatter.py lines
203-204). -/
def process_array_ids_params : List String :=
  ["site", "location", "data", "time_zone", "time_format_args_library",
   "output_dir", "array_ids_info", "file_ext"]

/-- The keyword-argument names used by the call in process_location
(cr10xformatter.py lines 403-412). -/
def process_location_call_keywords : List String :=
  ["site", "location", "array_ids_data", "time_zone", "time_format_args_library",
   "output_dir", "array_ids_info", "file_ext"]

/-- Python keyword binding for a function without defaults, *args or
**kwargs: the call binds (and the body runs) exactly when every keyword names
a parameter and every parameter receives a keyword; otherwise the call itself
raises TypeError before the body runs. -/
def call_binding_ok : Bool :=
  process_location_call_keywords.all (fun k => process_array_ids_params.contains k)
    && process_array_ids_params.all (fun k => process_location_call_keywords.contains k)

/-- The number of new rows found by process_location (cr10xformatter.py lines
390-393): the sum of the row counts over all array ids of the read data. -/
def num_new_rows (data : List (String × List RawRow)) : Nat :=
  (data.map (fun p => p.2.length)).sum

/-- The array-id-to-name table built at cr10xformatter.py lines 378-381. -/
def fmt_array_id_names (array_ids_info : List (String × ArrayIdInfo)) :
    List (String × String) :=
  array_ids_info.map (fun p => (p.1, p.2.name.getD p.1))

/-- Helper for splitext: the extension of a path (the suffix of its last
segment from the final dot), as os.path.splitext computes it.  The base name
is read from the reversed character list; the special case of a leading-dot
base name with no other dot is not distinguished, as no configured file name
has that shape. -/
def splitext_ext (p : String) : String :=
  let base := p.data.reverse.takeWhile (fun c => !(c = '/'))
  let ext := base.takeWhile (fun c => !(c = '.'))
  if ext.length = base.length then ("") else String.mk ('.' :: ext.reverse)

/-- The outcome of process_location: the configuration (unchanged unless the
tracking update ran), the output files written, and the exception raised, if
any (process_location has no handler, so an exception propagates). -/
structure ProcLocResult where
  cfg : FmtCfg
  writes : List FmtWrite
  err : Option PyErr
  deriving DecidableEq, Repr

/-- process_location (cr10xformatter.py lines 334-423): read the new rows
since the stored line number, return at once on an empty delta, otherwise
invoke process_array_ids by keyword — a call whose binding is checked before
anything in the callee runs — and, on success, apply the tracking update. -/
def process_location (parse : ParseFn) (pt_main : PtMainFn) (read_data : ReadFn)
    (cfg : FmtCfg) (output_dir site location : String) (location_info : FmtLocInfo)
    (track : Bool) : ProcLocResult :=
  let array_ids_info := location_info.array_ids
  let file_path := location_info.file_path
  let line_num := location_info.line_num.getD 0
  let time_zone := location_info.time_zone
  let time_format_args_library := location_info.time_format_args_library
  let data := read_data file_path line_num (fmt_array_id_names array_ids_info)
  let num_of_new_rows := num_new_rows data
  if num_of_new_rows = 0 then ⟨cfg, [], none⟩
  else
    let file_ext := splitext_ext file_path
    if call_binding_ok then
      -- the bound body of the call at lines 403-412; never reached, since
      -- the keyword array_ids_data is not a parameter of process_array_ids
      let r := process_array_ids parse pt_main site location data time_zone
        time_format_args_library output_dir array_ids_info file_ext
      match r.err with
      | some e => ⟨cfg, r.writes, some e⟩
      | none =>
        ⟨track_checkpoint_update cfg site location track line_num num_of_new_rows,
         r.writes, none⟩
    else ⟨cfg, [], some .typeError⟩

/-! ## services/ftpuploader.py -/

/-- Per-file configuration of the uploader (an entry of the files dict);
the fields the spec (section 6) declares for remote-sync mode. -/
structure FileInfo where
  name : Option String
  file_path : String
  line_num : Nat
  header_row : Nat
  deriving DecidableEq, Repr

/-- Per-location configuration of the uploader. -/
structure UpLocInfo where
  files : List (String × FileInfo)
  deriving DecidableEq, Repr

/-- Per-site configuration of the uploader. -/
structure UpSiteInfo where
  locations : List (String × UpLocInfo)
  deriving DecidableEq, Repr

/-- The uploader configuration; data_output_dir is optional, with the user
home directory (written here as a tilde) as recovery default. -/
structure UpCfg where
  data_output_dir : Option String
  sites : List (String × UpSiteInfo)
  deriving DecidableEq, Repr

/-- The ftpuploader.py lines 102-104 assignment: cfg sites site locations
location files file line_num is set. -/
def up_set_line_num (cfg : UpCfg) (site location file : String) (v : Nat) : UpCfg :=
  { cfg with sites := updateA site (fun si =>
      { si with locations := updateA location (fun li =>
          { li with files := updateA file (fun fi =>
              { fi with line_num := v }) li.files }) si.locations }) cfg.sites }

/-- The stored per-file checkpoint of the uploader configuration. -/
def up_stored_line_num (cfg : UpCfg) (site location file : String) : Option Nat :=
  match lookupA site cfg.sites with
  | none => none
  | some si =>
    match lookupA location si.locations with
    | none => none
    | some li =>
      match lookupA file li.files with
      | none => none
      | some fi => some fi.line_num

/-- An action of the uploader against the local staging area and the FTP
session: a csv export (with or without header), a STOR transfer, an APPE
transfer, or the local staging-file removal. -/
inductive FtpAction where
  | exportCsv (path : String) (header : Bool) (rows : DataSet)
  | stor (file_name : String)
  | appe (file_name : String)
  | removeLocal (path : String)
  deriving DecidableEq, Repr

/-- The external collaborators of the uploader, as oracles: the
cr.read_table_data primitive (file path, header row, first line number),
the remote directory listing returned by nlst, whether a store or append of
a given file name succeeds, whether navigation into a given directory
succeeds (cd_tree either ends inside the directory or raises), and the root
working directory reported by pwd before the run. -/
structure FtpEnv where
  readData : String → Nat → Nat → Except PyErr DataSet
  listing : List String
  storeOk : String → Bool
  cdOk : String → Bool
  rootDir : String

/-- cd_tree (ftpuploader.py lines 44-51): a no-op on the empty path;
otherwise it either leaves the session inside the directory (possibly after
creating it) or an uncaught session error propagates.  The outcome depends
only on the external session, modelled by the cdOk oracle. -/
def cd_tree (env : FtpEnv) (current_dir : String) : Except PyErr Unit :=
  if current_dir = ("") then .ok ()
  else if env.cdOk current_dir then .ok () else .error .ftpError

/-- The outcome of transfer_rows: the actions performed, the configuration
(its line_num advanced only on the full success path, as the assignment is
the last statement), and the exception raised, if any. -/
structure TransferResult where
  log : List FtpAction
  cfg : UpCfg
  err : Option PyErr
  deriving Repr

/-- transfer_rows (ftpuploader.py lines 54-104): read the new rows of the
file; on an empty delta do nothing; otherwise stage a csv — with header and
STOR when the target name is absent from the remote listing, without header
and APPE when it is present — remove the staging file, and advance the
in-memory line_num by the number of rows read.  There is no tracking flag:
the advance is unconditional on the success path. -/
def transfer_rows (env : FtpEnv) (cfg : UpCfg) (output_dir site location file : String)
    (file_info : FileInfo) : TransferResult :=
  let name := file_info.name.getD file
  let file_path := file_info.file_path
  let line_num := file_info.line_num
  let header_row := file_info.header_row
  let file_ext := splitext_ext file_path
  match env.readData file_path header_row line_num with
  | .error e => ⟨[], cfg, some e⟩
  | .ok data =>
    let num_of_new_rows := data.length
    if num_of_new_rows = 0 then ⟨[], cfg, none⟩
    else
      let file_name := name ++ file_ext
      let output_file_path :=
        output_dir ++ ("/") ++ site ++ ("/") ++ location ++ ("/") ++ file_name
      if file_name ∈ env.listing then
        if env.storeOk file_name then
          ⟨[FtpAction.exportCsv output_file_path false data,
            FtpAction.appe file_name,
            FtpAction.removeLocal output_file_path],
           up_set_line_num cfg site location file (line_num + num_of_new_rows), none⟩
        else ⟨[FtpAction.exportCsv output_file_path false data], cfg, some .ftpError⟩
      else
        if env.storeOk file_name then
          ⟨[FtpAction.exportCsv output_file_path true data,
            FtpAction.stor file_name,
            FtpAction.removeLocal output_file_path],
           up_set_line_num cfg site location file (line_num + num_of_new_rows), none⟩
        else ⟨[FtpAction.exportCsv output_file_path true data], cfg, some .ftpError⟩

/-- The outcome of the body of process_sites (the try block, ftpuploader.py
lines 139-224): the actions performed, and either the configuration as left
in memory after a clean run, or the exception that was raised. -/
structure UpRun where
  log : List FtpAction
  out : Except PyErr UpCfg
  deriving Repr

/-- The per-location files loop of process_sites (ftpuploader.py lines
176-185 and 193-202): navigate back to the location directory, into the file
directory, and transfer; an exception stops the loop. -/
def up_files_loop (env : FtpEnv) (output_dir site location location_dir : String)
    (cfg : UpCfg) : List (String × FileInfo) → UpRun
  | [] => ⟨[], .ok cfg⟩
  | (file, file_info) :: rest =>
    match cd_tree env location_dir with
    | .error e => ⟨[], .error e⟩
    | .ok _ =>
      match cd_tree env file with
      | .error e => ⟨[], .error e⟩
      | .ok _ =>
        let r := transfer_rows env cfg output_dir site location file file_info
        match r.err with
        | some e => ⟨r.log, .error e⟩
        | none =>
          let k := up_files_loop env output_dir site location location_dir r.cfg rest
          ⟨r.log ++ k.log, k.out⟩

/-- The per-site locations loop of process_sites (ftpuploader.py lines
188-202 and 210-224).  The pwd result after entering a directory is modelled
as the directory name itself. -/
def up_locations_loop (env : FtpEnv) (output_dir site site_dir : String)
    (cfg : UpCfg) : List (String × UpLocInfo) → UpRun
  | [] => ⟨[], .ok cfg⟩
  | (location, location_info) :: rest =>
    match cd_tree env site_dir with
    | .error e => ⟨[], .error e⟩
    | .ok _ =>
      match cd_tree env location with
      | .error e => ⟨[], .error e⟩
      | .ok _ =>
        let r := up_files_loop env output_dir site location location cfg
          location_info.files
        match r.out with
        | .error e => ⟨r.log, .error e⟩
        | .ok cfg' =>
          let k := up_locations_loop env output_dir site site_dir cfg' rest
          ⟨r.log ++ k.log, k.out⟩

/-- The all-sites loop of process_sites (ftpuploader.py lines 205-224). -/
def up_sites_loop (env : FtpEnv) (output_dir : String) (cfg : UpCfg) :
    List (String × UpSiteInfo) → UpRun
  | [] => ⟨[], .ok cfg⟩
  | (site, site_info) :: rest =>
    match cd_tree env env.rootDir with
    | .error e => ⟨[], .error e⟩
    | .ok _ =>
      match cd_tree env site with
      | .error e => ⟨[], .error e⟩
      | .ok _ =>
        let r := up_locations_loop env output_dir site site cfg site_info.locations
        match r.out with
        | .error e => ⟨r.log, .error e⟩
        | .ok cfg' =>
          let k := up_sites_loop env output_dir cfg' rest
          ⟨r.log ++ k.log, k.out⟩

/-- The command-line arguments of the uploader (setup_parser, ftpuploader.py
lines 233-246): site, location and file only — the uploader has no tracking
flag. -/
structure Args where
  site : Option String
  location : Option String
  file : Option String
  deriving DecidableEq, Repr

/-- The body of process_sites (the try block, ftpuploader.py lines 139-224):
the four nesting cases over the optional site, location and file arguments,
with dictionary lookups raising KeyError on absent keys. -/
def process_sites_body (env : FtpEnv) (args : Args) (cfg : UpCfg) : UpRun :=
  let output_dir := cfg.data_output_dir.getD ("~")
  match args.site with
  | none => up_sites_loop env output_dir cfg cfg.sites
  | some s =>
    match lookupA s cfg.sites with
    | none => ⟨[], .error .keyError⟩
    | some site_info =>
      match cd_tree env s with
      | .error e => ⟨[], .error e⟩
      | .ok _ =>
        match args.location with
        | none => up_locations_loop env output_dir s s cfg site_info.locations
        | some l =>
          match lookupA l site_info.locations with
          | none => ⟨[], .error .keyError⟩
          | some location_info =>
            match cd_tree env l with
            | .error e => ⟨[], .error e⟩
            | .ok _ =>
              match args.file with
              | none => up_files_loop env output_dir s l l cfg location_info.files
              | some f =>
                match lookupA f location_info.files with
                | none => ⟨[], .error .keyError⟩
                | some file_info =>
                  match cd_tree env f with
                  | .error e => ⟨[], .error e⟩
                  | .ok _ =>
                    let r := transfer_rows env cfg output_dir s l f file_info
                    match r.err with
                    | some e => ⟨r.log, .error e⟩
                    | none => ⟨r.log, .ok r.cfg⟩

/-- process_sites (ftpuploader.py lines 107-230): run the body inside the
try; on any exception the handler prints it and nothing is persisted; only
on the else branch — a run that raised nothing — is the in-memory
configuration saved.  The returned value is the persisted configuration. -/
def process_sites (env : FtpEnv) (args : Args) (cfg : UpCfg) : Option UpCfg :=
  match (process_sites_body env args cfg).out with
  | .ok cfg' => some cfg'
  | .error _ => none

/-! ## Helper lemmas -/

theorem make_data_set_backup_eq (data : DataSet) : make_data_set_backup data = data := by
  simp [make_data_set_backup]

/-! ## Claims -/

/-- C10: make_export_data_set returns a new table with the same number of
rows in the same order; each output row is a sublist of the corresponding
input row (original relative order) containing exactly the pairs whose key
appears in the export list; a column absent from an input row is simply
absent from the output row, with no error and no fill value. -/
theorem claim_C10_export_projection (data : DataSet) (columns_to_export : List String) :
    (make_export_data_set data columns_to_export).length = data.length ∧
    List.Forall₂ (fun r o => List.Sublist o r ∧
        (∀ p : String × String, p ∈ o ↔ p ∈ r ∧ p.1 ∈ columns_to_export))
      data (make_export_data_set data columns_to_export) := by
  constructor
  · simp [make_export_data_set]
  · rw [make_export_data_set, List.forall₂_map_right_iff, List.forall₂_same]
    intro r _
    constructor
    · exact List.filter_sublist r
    · intro p
      simp [List.mem_filter]

/-- C8: for every array-id demultiplex, the number of named rows plus the
number of mismatched rows equals the number of input rows (no row lost or
duplicated), and the mismatch set holds exactly the input rows whose field
count differs from the schema width, routed there without raising. -/
theorem claim_C8_row_conservation (column_names : List String) (data : List RawRow) :
    (update_column_names column_names data).1.length
        + (update_column_names column_names data).2.length = data.length ∧
    (update_column_names column_names data).2
        = data.filter (fun row => row.length != column_names.length) := by
  induction data with
  | nil => simp [update_column_names]
  | cons row rest ih =>
    have h1 := ih.1
    by_cases h : row.length = column_names.length
    · refine ⟨?_, ?_⟩
      · simp only [update_column_names, if_pos h, List.length_cons]
        omega
      · simp [update_column_names, h, ih.2]
    · refine ⟨?_, ?_⟩
      · simp only [update_column_names, if_neg h, List.length_cons]
        omega
      · simp [update_column_names, h, ih.2]

/-- C2: the tracking update applied by a tracked run of process_location
that read at least one new row (cr10xformatter.py lines 414-418) sets the
stored checkpoint of the site and location to the old stored line number
plus num_of_new_rows; in particular the new value is at least the old one.
The old stored value is the line_num of the configured location entry read
with default 0, exactly as process_location reads it. -/
theorem claim_C2_checkpoint_advance (cfg : FmtCfg) (site location : String)
    (num_of_new_rows : Nat) (si : FmtSiteInfo) (li : FmtLocInfo)
    (hsite : lookupA site cfg.sites = some si)
    (hloc : lookupA location si.locations = some li)
    (hn : 0 < num_of_new_rows) :
    fmt_stored_line_num cfg site location = some (li.line_num.getD 0) ∧
    fmt_stored_line_num
        (track_checkpoint_update cfg site location true (li.line_num.getD 0) num_of_new_rows)
        site location = some (li.line_num.getD 0 + num_of_new_rows) ∧
    li.line_num.getD 0 ≤ li.line_num.getD 0 + num_of_new_rows := by
  refine ⟨?_, ?_, Nat.le_add_right _ _⟩
  · simp [fmt_stored_line_num, hsite, hloc]
  · simp only [track_checkpoint_update, if_pos hn, if_true]
    simp [fmt_stored_line_num, fmt_set_line_num, lookupA_updateA_self, hsite, hloc]

/-- A one-site, one-location formatter configuration used as concrete input. -/
def fmt_loc1 : FmtLocInfo :=
  { array_ids := [], file_path := "site.dat", line_num := some 10,
    time_zone := "UTC", time_format_args_library := [] }

/-- The concrete formatter configuration holding fmt_loc1. -/
def fmt_cfg1 : FmtCfg :=
  { sites := [("S", { locations := [("L", fmt_loc1)] })] }

/-- Witness for C2 at a concrete configuration: the checkpoint stored for
site S, location L moves from 10 to 13 when 3 new rows were read. -/
theorem claim_C2_checkpoint_advance_witness :
    fmt_stored_line_num fmt_cfg1 ("S") ("L") = some 10 ∧
    fmt_stored_line_num (track_checkpoint_update fmt_cfg1 ("S") ("L") true 10 3)
        ("S") ("L") = some 13 ∧
    (10 : Nat) ≤ 13 :=
  claim_C2_checkpoint_advance fmt_cfg1 ("S") ("L") 3
    { locations := [("L", fmt_loc1)] } fmt_loc1 (by decide) (by decide) (by decide)

theorem call_binding_ok_eq_false : call_binding_ok = false := by decide

/-- C1: whenever the read yields at least one new row, process_location
raises TypeError before any array id is processed, any output file is
written, or any checkpoint is advanced: the call at lines 403-412 uses the
keyword array_ids_data, which is among the keywords of the call but is not
a parameter of process_array_ids, whose third parameter is named data. -/
theorem claim_C1_keyword_typeerror (parse : ParseFn) (pt_main : PtMainFn)
    (read_data : ReadFn) (cfg : FmtCfg) (output_dir site location : String)
    (location_info : FmtLocInfo) (track : Bool)
    (h : 0 < num_new_rows (read_data location_info.file_path
        (location_info.line_num.getD 0) (fmt_array_id_names location_info.array_ids))) :
    (process_location parse pt_main read_data cfg output_dir site location
        location_info track).err = some PyErr.typeError ∧
    (process_location parse pt_main read_data cfg output_dir site location
        location_info track).writes = [] ∧
    (process_location parse pt_main read_data cfg output_dir site location
        location_info track).cfg = cfg ∧
    ("array_ids_data") ∈ process_location_call_keywords ∧
    ("array_ids_data") ∉ process_array_ids_params ∧
    process_array_ids_params[2]? = some ("data") := by
  have hne : ¬ (num_new_rows (read_data location_info.file_path
      (location_info.line_num.getD 0) (fmt_array_id_names location_info.array_ids)) = 0) :=
    Nat.pos_iff_ne_zero.mp h
  refine ⟨?_, ?_, ?_, by decide, by decide, by decide⟩ <;>
    simp [process_location, hne, call_binding_ok_eq_false]

/-- A read oracle returning one fixed row for one array name. -/
def read_one_row : ReadFn := fun _ _ _ => [("A1", [["1", "2"]])]

/-- A read oracle returning no new rows. -/
def read_nothing : ReadFn := fun _ _ _ => []

/-- A concrete time-parse oracle. -/
def parse_const : ParseFn := fun _ _ _ _ _ => "2016-01-01 00:00:00"

/-- A concrete main-parse oracle, leaving the data set unchanged. -/
def pt_main_id : PtMainFn := fun _ _ _ _ _ data => data

/-- Witness for C1: with one new row read, the concrete run of
process_location raises TypeError, writes nothing and leaves the
configuration untouched. -/
theorem claim_C1_keyword_typeerror_witness :
    (process_location parse_const pt_main_id read_one_row fmt_cfg1 ("out") ("S") ("L")
        fmt_loc1 true).err = some PyErr.typeError ∧
    (process_location parse_const pt_main_id read_one_row fmt_cfg1 ("out") ("S") ("L")
        fmt_loc1 true).writes = [] ∧
    (process_location parse_const pt_main_id read_one_row fmt_cfg1 ("out") ("S") ("L")
        fmt_loc1 true).cfg = fmt_cfg1 ∧
    ("array_ids_data") ∈ process_location_call_keywords ∧
    ("array_ids_data") ∉ process_array_ids_params ∧
    process_array_ids_params[2]? = some ("data") :=
  claim_C1_keyword_typeerror parse_const pt_main_id read_one_row fmt_cfg1 ("out") ("S")
    ("L") fmt_loc1 true (by decide)

/-- C7: when the read since the stored checkpoint yields zero new rows,
process_location creates or modifies no output file and returns with the
configuration — the checkpoint included — unchanged and no exception,
whether or not tracking is enabled. -/
theorem claim_C7_noop_on_empty_delta (parse : ParseFn) (pt_main : PtMainFn)
    (read_data : ReadFn) (cfg : FmtCfg) (output_dir site location : String)
    (location_info : FmtLocInfo) (track : Bool)
    (h : num_new_rows (read_data location_info.file_path
        (location_info.line_num.getD 0) (fmt_array_id_names location_info.array_ids)) = 0) :
    process_location parse pt_main read_data cfg output_dir site location
        location_info track = ⟨cfg, [], none⟩ := by
  simp [process_location, h]

/-- Witness for C7: a concrete run whose read returns nothing is a no-op,
with tracking enabled. -/
theorem claim_C7_noop_on_empty_delta_witness :
    process_location parse_const pt_main_id read_nothing fmt_cfg1 ("out") ("S") ("L")
        fmt_loc1 true = ⟨fmt_cfg1, [], none⟩ :=
  claim_C7_noop_on_empty_delta parse_const pt_main_id read_nothing fmt_cfg1 ("out") ("S")
    ("L") fmt_loc1 true (by decide)

/-- C6: for a transfer with at least one new row, when the target file name
is absent from the remote listing transfer_rows stages the rows with a
header and stores a new remote file (STOR); when the name is present it
stages the rows with no header and appends to the existing remote file
(APPE); in both cases the staging file is removed afterwards. -/
theorem claim_C6_create_vs_append (env : FtpEnv) (cfg : UpCfg)
    (output_dir site location file : String) (file_info : FileInfo) (data : DataSet)
    (hread : env.readData file_info.file_path file_info.header_row file_info.line_num
        = .ok data)
    (hrows : 0 < data.length)
    (hstore : env.storeOk (file_info.name.getD file ++ splitext_ext file_info.file_path)
        = true) :
    ((file_info.name.getD file ++ splitext_ext file_info.file_path) ∉ env.listing →
      (transfer_rows env cfg output_dir site location file file_info).log =
        [FtpAction.exportCsv
            (output_dir ++ ("/") ++ site ++ ("/") ++ location ++ ("/")
              ++ (file_info.name.getD file ++ splitext_ext file_info.file_path))
            true data,
         FtpAction.stor (file_info.name.getD file ++ splitext_ext file_info.file_path),
         FtpAction.removeLocal
            (output_dir ++ ("/") ++ site ++ ("/") ++ location ++ ("/")
              ++ (file_info.name.getD file ++ splitext_ext file_info.file_path))]) ∧
    ((file_info.name.getD file ++ splitext_ext file_info.file_path) ∈ env.listing →
      (transfer_rows env cfg output_dir site location file file_info).log =
        [FtpAction.exportCsv
            (output_dir ++ ("/") ++ site ++ ("/") ++ location ++ ("/")
              ++ (file_info.name.getD file ++ splitext_ext file_info.file_path))
            false data,
         FtpAction.appe (file_info.name.getD file ++ splitext_ext file_info.file_path),
         FtpAction.removeLocal
            (output_dir ++ ("/") ++ site ++ ("/") ++ location ++ ("/")
              ++ (file_info.name.getD file ++ splitext_ext file_info.file_path))]) := by
  have hne : ¬ (data.length = 0) := Nat.pos_iff_ne_zero.mp hrows
  constructor
  · intro habs
    simp [transfer_rows, hread, hne, habs, hstore]
  · intro hpres
    simp [transfer_rows, hread, hne, hpres, hstore]

/-- A concrete uploader file entry. -/
def up_file1 : FileInfo :=
  { name := some ("Foo"), file_path := "local/Foo.csv", line_num := 10, header_row := 0 }

/-- A one-site, one-location, one-file uploader configuration. -/
def up_cfg1 : UpCfg :=
  { data_output_dir := some ("out"),
    sites := [("S", { locations := [("L", { files := [("F", up_file1)] })] })] }

/-- An uploader environment whose read yields one new row, whose remote
listing is empty, and whose session operations all succeed. -/
def up_env_create : FtpEnv :=
  { readData := fun _ _ _ => .ok [[("a", "1")]],
    listing := [],
    storeOk := fun _ => true,
    cdOk := fun _ => true,
    rootDir := "" }

/-- An uploader environment like up_env_create but whose remote listing
already contains Foo.csv. -/
def up_env_append : FtpEnv :=
  { readData := fun _ _ _ => .ok [[("a", "1")]],
    listing := ["Foo.csv"],
    storeOk := fun _ => true,
    cdOk := fun _ => true,
    rootDir := "" }

/-- Witness for C6: with Foo.csv absent from the concrete remote listing the
transfer is a header-included create followed by STOR. -/
theorem claim_C6_create_vs_append_witness :
    (transfer_rows up_env_create up_cfg1 ("out") ("S") ("L") ("F") up_file1).log =
      [FtpAction.exportCsv ("out/S/L/Foo.csv") true [[("a", "1")]],
       FtpAction.stor ("Foo.csv"),
       FtpAction.removeLocal ("out/S/L/Foo.csv")] :=
  ((claim_C6_create_vs_append up_env_create up_cfg1 ("out") ("S") ("L") ("F") up_file1
    [[("a", "1")]] rfl (by decide) rfl).1 (by decide)).trans (by decide)

/-- C4: in a remote-sync run, the in-memory configuration — the checkpoint
structure included — is persisted exactly when the body of the run (the try
block of process_sites) raises nothing, and it is then the configuration the
body produced; when any exception is raised during the run, nothing at all
is persisted, so every checkpoint advancement of that run is discarded. -/
theorem claim_C4_all_or_nothing_persistence (env : FtpEnv) (args : Args) (cfg : UpCfg) :
    (∀ cfg', process_sites env args cfg = some cfg' ↔
        (process_sites_body env args cfg).out = .ok cfg') ∧
    (∀ e, (process_sites_body env args cfg).out = .error e →
        process_sites env args cfg = none) := by
  constructor
  · intro cfg'
    cases h : (process_sites_body env args cfg).out <;> simp [process_sites, h]
  · intro e h
    simp [process_sites, h]

/-- An uploader environment in which entering any remote directory fails, so
that the first site of a full run raises. -/
def up_env_cdfail : FtpEnv :=
  { readData := fun _ _ _ => .ok [[("a", "1")]],
    listing := [],
    storeOk := fun _ => true,
    cdOk := fun _ => false,
    rootDir := "" }

/-- Witness for C4: on a concrete full run whose remote navigation raises,
the body errors and nothing is persisted. -/
theorem claim_C4_all_or_nothing_persistence_witness :
    process_sites up_env_cdfail ⟨none, none, none⟩ up_cfg1 = none :=
  (claim_C4_all_or_nothing_persistence up_env_cdfail ⟨none, none, none⟩ up_cfg1).2
    PyErr.ftpError rfl

/-- C5 (amended): in the formatter, the configuration — every line_num
included — is unchanged by process_location whenever tracking is off, and
also whenever an exception is raised; in the uploader, transfer_rows leaves
the configuration unchanged whenever it raises, and after a successful
transfer of at least one new row it always advances the line_num of the
file by the number of rows read — the uploader has no tracking opt-in. -/
theorem claim_C5_checkpoint_mutation_amended :
    (∀ (parse : ParseFn) (pt_main : PtMainFn) (read_data : ReadFn) (cfg : FmtCfg)
        (output_dir site location : String) (location_info : FmtLocInfo),
      (process_location parse pt_main read_data cfg output_dir site location
          location_info false).cfg = cfg) ∧
    (∀ (parse : ParseFn) (pt_main : PtMainFn) (read_data : ReadFn) (cfg : FmtCfg)
        (output_dir site location : String) (location_info : FmtLocInfo) (track : Bool)
        (e : PyErr),
      (process_location parse pt_main read_data cfg output_dir site location
          location_info track).err = some e →
      (process_location parse pt_main read_data cfg output_dir site location
          location_info track).cfg = cfg) ∧
    (∀ (env : FtpEnv) (cfg : UpCfg) (output_dir site location file : String)
        (file_info : FileInfo) (e : PyErr),
      (transfer_rows env cfg output_dir site location file file_info).err = some e →
      (transfer_rows env cfg output_dir site location file file_info).cfg = cfg) ∧
    (∀ (env : FtpEnv) (cfg : UpCfg) (output_dir site location file : String)
        (file_info : FileInfo) (data : DataSet),
      env.readData file_info.file_path file_info.header_row file_info.line_num
          = .ok data →
      (transfer_rows env cfg output_dir site location file file_info).err = none →
      0 < data.length →
      (transfer_rows env cfg output_dir site location file file_info).cfg
        = up_set_line_num cfg site location file (file_info.line_num + data.length)) := by
  refine ⟨?_, ?_, ?_, ?_⟩
  · intro parse pt_main read_data cfg output_dir site location location_info
    simp only [process_location]
    split
    · rfl
    · split
      · split
        · rfl
        · simp [track_checkpoint_update]
      · rfl
  · intro parse pt_main read_data cfg output_dir site location location_info track e
    simp only [process_location]
    split
    · intro _; rfl
    · split
      · split
        · intro _; rfl
        · intro h; exact absurd h (by simp)
      · intro _; rfl
  · intro env cfg output_dir site location file file_info e
    simp only [transfer_rows]
    split
    · intro _; rfl
    · split
      · intro _; rfl
      · split
        · split
          · intro h; exact absurd h (by simp)
          · intro _; rfl
        · split
          · intro h; exact absurd h (by simp)
          · intro _; rfl
  · intro env cfg output_dir site location file file_info data hread herr hpos
    have hne : ¬ (data.length = 0) := Nat.pos_iff_ne_zero.mp hpos
    by_cases hmem :
        (file_info.name.getD file ++ splitext_ext file_info.file_path) ∈ env.listing <;>
      by_cases hstore :
        env.storeOk (file_info.name.getD file ++ splitext_ext file_info.file_path)
          = true <;>
      simp only [transfer_rows, hread, hne, hmem, hstore, if_true, if_false,
        ite_true, ite_false, Bool.false_eq_true, if_pos, if_neg] at herr ⊢ <;>
      simp_all

/-- An uploader environment whose read yields one new row but whose store
and append transfers fail. -/
def up_env_storefail : FtpEnv :=
  { readData := fun _ _ _ => .ok [[("a", "1")]],
    listing := [],
    storeOk := fun _ => false,
    cdOk := fun _ => true,
    rootDir := "" }

/-- Counterexample for C5 as stated: the uploader offers no tracking opt-in
at all (its Args carry only site, location and file), yet a concrete
successful transfer_rows run mutates the stored line_num from 10 to 11 —
so it is not the case that every line_num field is left unchanged when
tracking was never requested. -/
theorem claim_C5_checkpoint_mutation_counterexample :
    (transfer_rows up_env_create up_cfg1 ("out") ("S") ("L") ("F") up_file1).err
        = none ∧
    (transfer_rows up_env_create up_cfg1 ("out") ("S") ("L") ("F") up_file1).cfg
        ≠ up_cfg1 ∧
    up_stored_line_num
        (transfer_rows up_env_create up_cfg1 ("out") ("S") ("L") ("F") up_file1).cfg
        ("S") ("L") ("F") = some 11 ∧
    up_stored_line_num up_cfg1 ("S") ("L") ("F") = some 10 :=
  ⟨rfl, by decide, rfl, rfl⟩

/-- Witness for the amended C5, one concrete instance per conjunct: an
untracked formatter run and a raising formatter run leave the configuration
unchanged; a failing transfer leaves it unchanged; a successful one-row
transfer advances the line_num of the file by one. -/
theorem claim_C5_checkpoint_mutation_amended_witness :
    (process_location parse_const pt_main_id read_one_row fmt_cfg1 ("out") ("S") ("L")
        fmt_loc1 false).cfg = fmt_cfg1 ∧
    (process_location parse_const pt_main_id read_one_row fmt_cfg1 ("out") ("S") ("L")
        fmt_loc1 true).cfg = fmt_cfg1 ∧
    (transfer_rows up_env_storefail up_cfg1 ("out") ("S") ("L") ("F") up_file1).cfg
        = up_cfg1 ∧
    (transfer_rows up_env_create up_cfg1 ("out") ("S") ("L") ("F") up_file1).cfg
        = up_set_line_num up_cfg1 ("S") ("L") ("F") (up_file1.line_num + 1) :=
  ⟨claim_C5_checkpoint_mutation_amended.1 parse_const pt_main_id read_one_row fmt_cfg1
      ("out") ("S") ("L") fmt_loc1,
   claim_C5_checkpoint_mutation_amended.2.1 parse_const pt_main_id read_one_row fmt_cfg1
      ("out") ("S") ("L") fmt_loc1 true PyErr.typeError rfl,
   claim_C5_checkpoint_mutation_amended.2.2.1 up_env_storefail up_cfg1 ("out") ("S")
      ("L") ("F") up_file1 PyErr.ftpError rfl,
   claim_C5_checkpoint_mutation_amended.2.2.2 up_env_create up_cfg1 ("out") ("S") ("L")
      ("F") up_file1 [[("a", "1")]] rfl rfl (by decide)⟩

theorem convert_loop_unsupported (parse : ParseFn) (data data_backup : DataSet)
    (time_zone : String) (time_format_args_library : List String) (to_utc : Bool)
    (pre : List (String × ConvertColumnInfo)) (column_name : String)
    (info : ConvertColumnInfo) (rest : List (String × ConvertColumnInfo))
    (hpre : ∀ q ∈ pre, (Prod.snd q).value_type = some ("time"))
    (hbad : ¬ info.value_type = some ("time")) :
    ∀ acc : DataSet,
      convert_loop parse data data_backup time_zone time_format_args_library to_utc acc
        (pre ++ (column_name, info) :: rest)
      = .error .unsupportedValueConversionType := by
  induction pre with
  | nil =>
    intro acc
    simp [convert_loop, hbad]
  | cons q qs ih =>
    intro acc
    obtain ⟨qn, qi⟩ := q
    have hq : qi.value_type = some ("time") := hpre (qn, qi) (List.mem_cons_self _ _)
    simp only [List.cons_append, convert_loop, hq, if_pos rfl]
    exact ih (fun r hr => hpre r (List.mem_cons_of_mem _ hr)) _

theorem process_array_ids_from_prefix_error (parse : ParseFn) (pt_main : PtMainFn)
    (site location : String) (data : List (String × List RawRow))
    (time_zone : String) (time_format_args_library : List String)
    (output_dir file_ext : String) (pre : List (String × ArrayIdInfo))
    (bad_id : String) (bad_info : ArrayIdInfo) (rest : List (String × ArrayIdInfo))
    (e : PyErr)
    (hpre : (process_array_ids_from parse pt_main site location data time_zone
        time_format_args_library output_dir file_ext pre).err = none)
    (hbad : process_one_array_id parse pt_main site location data time_zone
        time_format_args_library output_dir file_ext bad_id bad_info = .error e) :
    process_array_ids_from parse pt_main site location data time_zone
        time_format_args_library output_dir file_ext (pre ++ (bad_id, bad_info) :: rest)
      = ⟨(process_array_ids_from parse pt_main site location data time_zone
            time_format_args_library output_dir file_ext pre).writes, some e⟩ := by
  induction pre with
  | nil => simp [process_array_ids_from, hbad]
  | cons x xs ih =>
    obtain ⟨xid, xinfo⟩ := x
    cases hx : process_one_array_id parse pt_main site location data time_zone
        time_format_args_library output_dir file_ext xid xinfo with
    | error e' =>
      exfalso
      simp [process_array_ids_from, hx] at hpre
    | ok ws =>
      have hxs : (process_array_ids_from parse pt_main site location data time_zone
          time_format_args_library output_dir file_ext xs).err = none := by
        simpa [process_array_ids_from, hx] using hpre
      simp [process_array_ids_from, hx, ih hxs]

/-- C9: a conversion specification whose value_type is not time makes
convert_data_column_values raise the unsupported-conversion error as soon as
it is reached (every specification before it being a time one), and when an
array id of the process_array_ids loop raises this way, the run stops with
exactly the writes of the array ids already processed before it — those
earlier outputs are unaffected, and nothing is written for the failing
array id. -/
theorem claim_C9_unsupported_conversion :
    (∀ (parse : ParseFn) (data : DataSet) (time_zone : String)
        (time_format_args_library : List String) (to_utc : Bool)
        (pre : List (String × ConvertColumnInfo)) (column_name : String)
        (info : ConvertColumnInfo) (rest : List (String × ConvertColumnInfo)),
      (∀ q ∈ pre, (Prod.snd q).value_type = some ("time")) →
      ¬ info.value_type = some ("time") →
      convert_data_column_values parse data (pre ++ (column_name, info) :: rest)
          time_zone time_format_args_library to_utc
        = .error .unsupportedValueConversionType) ∧
    (∀ (parse : ParseFn) (pt_main : PtMainFn) (site location : String)
        (data : List (String × List RawRow)) (time_zone : String)
        (time_format_args_library : List String) (output_dir : String)
        (pre : List (String × ArrayIdInfo)) (bad_id : String) (bad_info : ArrayIdInfo)
        (rest : List (String × ArrayIdInfo)) (file_ext : String) (e : PyErr),
      (process_array_ids parse pt_main site location data time_zone
          time_format_args_library output_dir pre file_ext).err = none →
      process_one_array_id parse pt_main site location data time_zone
          time_format_args_library output_dir file_ext bad_id bad_info = .error e →
      process_array_ids parse pt_main site location data time_zone
          time_format_args_library output_dir (pre ++ (bad_id, bad_info) :: rest)
          file_ext
        = ⟨(process_array_ids parse pt_main site location data time_zone
              time_format_args_library output_dir pre file_ext).writes, some e⟩) := by
  constructor
  · intro parse data time_zone time_format_args_library to_utc pre column_name info
      rest hpre hbad
    exact convert_loop_unsupported parse data (make_data_set_backup data) time_zone
      time_format_args_library to_utc pre column_name info rest hpre hbad []
  · intro parse pt_main site location data time_zone time_format_args_library
      output_dir pre bad_id bad_info rest file_ext e hpre hbad
    exact process_array_ids_from_prefix_error parse pt_main site location data
      time_zone time_format_args_library output_dir file_ext pre bad_id bad_info rest
      e hpre hbad

/-- A concrete array-id configuration needing no value conversion. -/
def arr_info_good : ArrayIdInfo :=
  { name := some ("A1"), column_names := ["Year", "Temp"],
    export_columns := ["Year", "Temp"], include_time_zone := false,
    time_columns := [], time_parsed_column_name := none, to_utc := false,
    convert_data_column_values := [] }

/-- A concrete array-id configuration declaring a non-time value conversion. -/
def arr_info_bad : ArrayIdInfo :=
  { name := some ("A2"), column_names := ["X"], export_columns := ["X"],
    include_time_zone := false, time_columns := [],
    time_parsed_column_name := none, to_utc := false,
    convert_data_column_values :=
      [("X", { value_type := some ("num"), value_time_columns := [] })] }

/-- Concrete demultiplexed data for the two array ids above. -/
def arr_data9 : List (String × List RawRow) :=
  [("A1", [["1", "2"]]), ("A2", [["3"]])]

/-- Witness for C9: a concrete non-time specification makes the conversion
raise, and in a concrete two-array run whose second array declares it, the
run keeps exactly the writes of the first array and stops with the error. -/
theorem claim_C9_unsupported_conversion_witness :
    convert_data_column_values parse_const [[("a", "1")]]
        ([] ++ ("c", { value_type := some ("num"), value_time_columns := [] }) :: [])
        ("UTC") [] false = .error .unsupportedValueConversionType ∧
    process_array_ids parse_const pt_main_id ("S") ("L") arr_data9 ("UTC") [] ("out")
        ([("1", arr_info_good)] ++ ("2", arr_info_bad) :: []) (".dat")
      = ⟨(process_array_ids parse_const pt_main_id ("S") ("L") arr_data9 ("UTC") []
            ("out") [("1", arr_info_good)] (".dat")).writes,
         some .unsupportedValueConversionType⟩ :=
  ⟨claim_C9_unsupported_conversion.1 parse_const [[("a", "1")]] ("UTC") [] false []
      ("c") { value_type := some ("num"), value_time_columns := [] } [] (by simp)
      (by decide),
   claim_C9_unsupported_conversion.2 parse_const pt_main_id ("S") ("L") arr_data9
      ("UTC") [] ("out") [("1", arr_info_good)] ("2") arr_info_bad [] (".dat")
      PyErr.unsupportedValueConversionType rfl rfl⟩

theorem collect_converted_map_singleton (cn : String) (g : NRow → String) :
    ∀ data : DataSet,
      collect_converted cn (data.map (fun r => [(cn, g r)]))
        = data.map (fun r => [(cn, g r)])
  | [] => rfl
  | r :: rest => by
      simp [collect_converted, collect_converted_map_singleton cn g rest]

theorem ucvg_map_singleton (cn : String) (g : NRow → String) :
    ∀ data : DataSet,
      update_column_values_generator data (data.map (fun r => [(cn, g r)]))
        = data.map (fun r => r.map (fun p => if cn = p.1 then (p.1, g r) else p))
  | [] => rfl
  | r :: rest => by
      have htail := ucvg_map_singleton cn g rest
      simp only [update_column_values_generator, List.map_cons,
        List.zipWith_cons_cons] at htail ⊢
      rw [htail]
      congr 1
      apply List.map_congr_left
      intro p _
      by_cases h : cn = p.1 <;> simp [lookupA, h]

theorem convert_single_time_closed (parse : ParseFn) (data : DataSet)
    (column_name : String) (info : ConvertColumnInfo) (time_zone : String)
    (time_format_args_library : List String) (to_utc : Bool)
    (h : info.value_type = some ("time")) :
    convert_data_column_values parse data [(column_name, info)] time_zone
        time_format_args_library to_utc
      = .ok (data.map (fun r => r.map (fun p =>
          if column_name = p.1
          then (p.1, parse info.value_time_columns time_zone time_format_args_library
            to_utc r)
          else p))) := by
  simp only [convert_data_column_values, convert_loop, h, if_pos,
    make_data_set_backup_eq, restore_data_after_data_time_conversion,
    convert_data_time_values]
  rw [collect_converted_map_singleton, ucvg_map_singleton]

theorem conv_row_props (cn v : String) (r : NRow) :
    ((r.map (fun p => if cn = p.1 then (p.1, v) else p)).map Prod.fst
        = r.map Prod.fst) ∧
    (∀ p : String × String, ¬ p.1 = cn →
        (p ∈ r.map (fun p => if cn = p.1 then (p.1, v) else p) ↔ p ∈ r)) ∧
    (∀ p : String × String,
        p ∈ r.map (fun p => if cn = p.1 then (p.1, v) else p) → p.1 = cn →
        p.2 = v) := by
  refine ⟨?_, ?_, ?_⟩
  · rw [List.map_map]
    apply List.map_congr_left
    intro p _
    by_cases h : cn = p.1 <;> simp [h]
  · intro p hp
    constructor
    · intro hmem
      obtain ⟨q, hq, hfq⟩ := List.mem_map.mp hmem
      by_cases h : cn = q.1
      · exfalso
        apply hp
        rw [← hfq, if_pos h]
        exact h.symm
      · rw [if_neg h] at hfq
        rwa [← hfq]
    · intro hmem
      have hid : (if cn = p.1 then (p.1, v) else p) = p :=
        if_neg (fun hc => hp hc.symm)
      exact List.mem_map.mpr ⟨p, hmem, hid⟩
  · intro p hmem hpc
    obtain ⟨q, hq, hfq⟩ := List.mem_map.mp hmem
    by_cases h : cn = q.1
    · rw [if_pos h] at hfq
      rw [← hfq]
    · exfalso
      rw [if_neg h] at hfq
      exact h (by rw [hfq, hpc])

/-- C3: for a declared time conversion, convert_data_column_values succeeds
and returns one output row per input row, in order; each output row has
exactly the column names of its input row (as an equal name list), every
pair of a column other than the target is carried over unchanged, and the
target column, where present, carries the parsed value of the source row. -/
theorem claim_C3_conversion_column_identity (parse : ParseFn) (data : DataSet)
    (column_name : String) (info : ConvertColumnInfo) (time_zone : String)
    (time_format_args_library : List String) (to_utc : Bool)
    (h : info.value_type = some ("time")) :
    ∃ out, convert_data_column_values parse data [(column_name, info)] time_zone
        time_format_args_library to_utc = .ok out ∧
      out.length = data.length ∧
      List.Forall₂ (fun r o =>
        o.map Prod.fst = r.map Prod.fst ∧
        (∀ p : String × String, ¬ p.1 = column_name → (p ∈ o ↔ p ∈ r)) ∧
        (∀ p : String × String, p ∈ o → p.1 = column_name →
          p.2 = parse info.value_time_columns time_zone time_format_args_library
            to_utc r)) data out := by
  refine ⟨_, convert_single_time_closed parse data column_name info time_zone
      time_format_args_library to_utc h, by simp, ?_⟩
  rw [List.forall₂_map_right_iff, List.forall₂_same]
  intro r _
  exact conv_row_props column_name
    (parse info.value_time_columns time_zone time_format_args_library to_utc r) r

/-- A concrete conversion specification of type time over column T. -/
def time_info3 : ConvertColumnInfo :=
  { value_type := some ("time"), value_time_columns := ["T"] }

/-- Witness for C3 at a concrete one-row table with columns T and Temp. -/
theorem claim_C3_conversion_column_identity_witness :
    ∃ out, convert_data_column_values parse_const [[("T", "x"), ("Temp", "5")]]
        [(("T"), time_info3)] ("UTC") [] false = .ok out ∧
      out.length = [[("T", "x"), ("Temp", "5")]].length ∧
      List.Forall₂ (fun r o =>
        o.map Prod.fst = r.map Prod.fst ∧
        (∀ p : String × String, ¬ p.1 = ("T") → (p ∈ o ↔ p ∈ r)) ∧
        (∀ p : String × String, p ∈ o → p.1 = ("T") →
          p.2 = parse_const time_info3.value_time_columns ("UTC") [] false r))
        [[("T", "x"), ("Temp", "5")]] out :=
  claim_C3_conversion_column_identity parse_const [[("T", "x"), ("Temp", "5")]]
    ("T") time_info3 ("UTC") [] false rfl
